import Mathlib

/-!
Verification of the OAuth credential-lifecycle core of `rss-to-kobo`
(`src/scripts/auth/secure_storage.py`, `src/scripts/auth/oauth_handler.py`,
`src/scripts/auth/cli.py`) against its natural-language specification.

The Python code is shallowly embedded: token dictionaries become association
lists of JSON values with Python-dict update semantics, the per-identity
token file plus its temporary sibling become an explicit filesystem record,
Fernet authenticated encryption is modelled by its contract (decryption with
the deriving key recovers exactly the serialized payload, any other key
fails), and exception control flow becomes `Except` values.  Environmental
failures the Python code guards against (a failing temporary-file write, a
failing verification re-load, a failing remote call) are injected through
explicit boolean oracles so that every `except` branch of the source is a
reachable branch of the model.
-/

/-- JSON-representable primitive values stored in a token dictionary
(`json.dumps`/`json.loads` round-trips these unchanged). -/
inductive JVal where
  | jstr : String → JVal
  | jint : Int → JVal
  | jbool : Bool → JVal
  | jnull : JVal
deriving DecidableEq, Repr

/-- A Python token dictionary: insertion-ordered keys mapped to JSON values.
Mirrors the duck-typed `Dict[str, Any]` token records of the source. -/
abbrev TokenRecord := List (String × JVal)

/-- `d[k]` / `k in d` on a Python dict: the value at the (unique) occurrence
of `k`, if present. -/
def dictLookup : TokenRecord → String → Option JVal
  | [], _ => none
  | (k', v') :: rest, k => if k' = k then some v' else dictLookup rest k

/-- `d[k] = v` on a Python dict: replaces the value in place when the key is
present, otherwise appends the key at the end (insertion order). -/
def dictInsert : TokenRecord → String → JVal → TokenRecord
  | [], k, v => [(k, v)]
  | (k', v') :: rest, k, v =>
    if k' = k then (k, v) :: rest else (k', v') :: dictInsert rest k v

theorem dictLookup_dictInsert_self (d : TokenRecord) (k : String) (v : JVal) :
    dictLookup (dictInsert d k v) k = some v := by
  induction d with
  | nil => simp [dictInsert, dictLookup]
  | cons hd tl ih =>
    by_cases h : hd.1 = k
    · simp [dictInsert, dictLookup, h]
    · simp [dictInsert, dictLookup, h, ih]

theorem dictLookup_dictInsert_other (d : TokenRecord) (k k' : String) (v : JVal)
    (hne : k' ≠ k) : dictLookup (dictInsert d k v) k' = dictLookup d k' := by
  induction d with
  | nil =>
    simp only [dictInsert, dictLookup]
    rw [if_neg (Ne.symm hne)]
  | cons hd tl ih =>
    by_cases h : hd.1 = k
    · simp only [dictInsert, dictLookup, h, if_pos rfl, if_true]
      rw [if_neg (Ne.symm hne), if_neg (Ne.symm hne)]
    · simp [dictInsert, dictLookup, h, ih]

/-! ## CredentialCodec (`secure_storage.py`, `generate_key_from_password` / Fernet)

`generate_key_from_password` runs PBKDF2-HMAC-SHA256 (100000 iterations,
32-byte output) over the passphrase with the fixed `DEV_SALT`; it is a
deterministic function of the passphrase, modelled abstractly as an injective
tagging of the passphrase.  Fernet is authenticated symmetric encryption:
decryption under the encrypting key returns exactly the plaintext, and any
mismatch (wrong key, tampering) raises `InvalidToken`, modelled as `none`. -/

/-- Key derivation of `generate_key_from_password` with the default
`DEV_SALT`: a deterministic, injective function of the passphrase. -/
def generate_key_from_password (password : String) : String :=
  "pbkdf2-sha256-100000-" ++ password

/-- An encrypted token file: a Fernet ciphertext, modelled by the contract of
authenticated encryption as the encrypting key together with the serialized
JSON payload. -/
structure Encrypted where
  key : String
  payload : TokenRecord
deriving DecidableEq, Repr

/-- `Fernet(key).encrypt(json.dumps(tokens))`. -/
def fernetEncrypt (key : String) (payload : TokenRecord) : Encrypted :=
  ⟨key, payload⟩

/-- `Fernet(key).decrypt` followed by `json.loads`: succeeds exactly under
the encrypting key (authenticated encryption fails closed otherwise). -/
def fernetDecrypt (key : String) (e : Encrypted) : Option TokenRecord :=
  if e.key = key then some e.payload else none

/-! ## CredentialStore (`secure_storage.py`, class `SecureTokenStorage`)

One storage object manages one identity's token file `token_path` and its
temporary sibling `token_path.tmp`; the filesystem state relevant to it is
the (optional) content of those two paths. -/

/-- Contents of the identity's token file (`dest`) and of its temporary
sibling `<token_path>.tmp` (`tmp`); `none` means the path does not exist. -/
structure StorageFS where
  dest : Option Encrypted
  tmp : Option Encrypted
deriving DecidableEq, Repr

/-- `SecureTokenStorage.load_tokens`: returns `None` when the file does not
exist or decryption/parsing fails, otherwise the decrypted record. -/
def load_tokens (fs : StorageFS) (password : String) : Option TokenRecord :=
  match fs.dest with
  | none => none
  | some e => fernetDecrypt (generate_key_from_password password) e

/-- Result of `SecureTokenStorage.save_tokens`: the filesystem afterwards,
the caller's dictionary after the in-place `tokens['_saved_at'] = ...`
mutation, and the returned boolean. -/
structure SaveResult where
  fs : StorageFS
  tokens : TokenRecord
  ok : Bool
deriving DecidableEq, Repr

/-- `SecureTokenStorage.save_tokens` with the write of the temporary file
modelled as fallible (`writeOk`): the passed dictionary is first mutated in
place with `_saved_at = datetime.utcnow().isoformat()` (`now`), then
serialized and encrypted.  On a successful write the temporary file is
created, the existing destination (if any) is unlinked, and the temporary
file is renamed over the destination; on a failed write the handler removes
the temporary file and returns `False`, leaving the destination untouched
(but the dictionary already mutated). -/
def save_tokens (fs : StorageFS) (password : String) (tokens : TokenRecord)
    (now : String) (writeOk : Bool) : SaveResult :=
  let mutated := dictInsert tokens "_saved_at" (JVal.jstr now)
  let enc := fernetEncrypt (generate_key_from_password password) mutated
  if writeOk then
    { fs := { dest := some enc, tmp := none }, tokens := mutated, ok := true }
  else
    { fs := { fs with tmp := none }, tokens := mutated, ok := false }

/-- The successive filesystem states of a successful `save_tokens` run, in
program order: initial state; after writing the temporary file; when the
destination already exists, after `os.unlink(self.token_path)`; after
`os.rename(temp_path, self.token_path)`.  An interruption during the save
leaves the filesystem in one of these states. -/
def save_states (fs : StorageFS) (password : String) (tokens : TokenRecord)
    (now : String) : List StorageFS :=
  let enc := fernetEncrypt (generate_key_from_password password)
    (dictInsert tokens "_saved_at" (JVal.jstr now))
  let afterTmp : StorageFS := { fs with tmp := some enc }
  let afterUnlink : StorageFS := { dest := none, tmp := some enc }
  let afterRename : StorageFS := { dest := some enc, tmp := none }
  match fs.dest with
  | some _ => [fs, afterTmp, afterUnlink, afterRename]
  | none => [fs, afterTmp, afterRename]

/-- `SecureTokenStorage.clear_tokens`: when the file exists it is removed by
`os.unlink(self.token_path)`, but the immediately following
`self.token_path.unlink()` then raises `FileNotFoundError` (an `OSError`),
which the handler catches, returning `False`; when the file does not exist
the body does nothing and returns `True`. -/
def clear_tokens (fs : StorageFS) : StorageFS × Bool :=
  match fs.dest with
  | some _ => ({ fs with dest := none }, false)
  | none => (fs, true)

/-! ## TokenLifecycle / AuthorizationFlow (`oauth_handler.py`, class `OAuthHandler`)

Exceptions become `Except AuthError` values.  Each `try/except Exception`
block of the source that re-raises under a fixed type becomes an explicit
wrapping function, so that the conversion of inner exceptions is visible in
the model exactly where it happens in the code. -/

/-- The exception types of `scripts/auth/exceptions.py` that can cross an
`OAuthHandler` method boundary, plus `remoteFailure` for exceptions coming
out of the Dropbox SDK / requests stack. -/
inductive AuthError where
  | authenticationError
  | authorizationError
  | tokenRefreshError
  | tokenStorageError
  | remoteFailure
deriving DecidableEq, Repr

/-- The `except Exception as e: raise exceptions.TokenRefreshError(...) from e`
handler wrapping the whole body of `OAuthHandler.refresh_tokens`: every
exception, whatever its type, leaves as `TokenRefreshError`. -/
def wrapAsTokenRefreshError (r : Except AuthError TokenRecord) :
    Except AuthError TokenRecord :=
  match r with
  | Except.ok a => Except.ok a
  | Except.error _ => Except.error AuthError.tokenRefreshError

/-- The `except Exception as e: raise exceptions.AuthorizationError(...) from e`
handler wrapping the whole body of `OAuthHandler.finish_authorization`. -/
def wrapAsAuthorizationError (r : Except AuthError Unit) :
    Except AuthError Unit :=
  match r with
  | Except.ok a => Except.ok a
  | Except.error _ => Except.error AuthError.authorizationError

/-- Body of the `try` block of `OAuthHandler.refresh_tokens`: the Dropbox
client call `users_get_current_account` (which performs the remote
refresh-token-for-access-token exchange; `refreshCallOk` says whether it
succeeds, and `newAccessToken` is the access token it yields), then
construction of the new token dictionary — new access token, the unchanged
refresh token, token type `bearer`, `refreshed_at = int(utcnow().timestamp())`
(`refreshedAt`) — then `save_tokens` (whose `_saved_at` stamp is `savedAt`),
raising `TokenStorageError` when the save returns `False`, and otherwise
returning the (mutated) dictionary. -/
def refresh_tokens_body (fs : StorageFS) (password refreshToken : String)
    (newAccessToken : String) (refreshedAt : Int) (savedAt : String)
    (refreshCallOk writeOk : Bool) : StorageFS × Except AuthError TokenRecord :=
  if refreshCallOk then
    let tokens : TokenRecord :=
      [("access_token", JVal.jstr newAccessToken),
       ("refresh_token", JVal.jstr refreshToken),
       ("token_type", JVal.jstr "bearer"),
       ("refreshed_at", JVal.jint refreshedAt)]
    let r := save_tokens fs password tokens savedAt writeOk
    if r.ok then (r.fs, Except.ok r.tokens)
    else (r.fs, Except.error AuthError.tokenStorageError)
  else (fs, Except.error AuthError.remoteFailure)

/-- `OAuthHandler.refresh_tokens`: the body under the blanket
`except Exception` handler that re-raises everything as `TokenRefreshError`. -/
def refresh_tokens (fs : StorageFS) (password refreshToken : String)
    (newAccessToken : String) (refreshedAt : Int) (savedAt : String)
    (refreshCallOk writeOk : Bool) : StorageFS × Except AuthError TokenRecord :=
  let (fs', r) := refresh_tokens_body fs password refreshToken newAccessToken
    refreshedAt savedAt refreshCallOk writeOk
  (fs', wrapAsTokenRefreshError r)

/-- The token data returned by `OAuthHandler._exchange_code_for_token` on a
successful code-for-token exchange. -/
structure ExchangeResult where
  accessToken : String
  refreshToken : Option String
  tokenType : String
  accountId : String
  uid : String
  expiresIn : Option Int
deriving DecidableEq, Repr

/-- Body of the `try` block of `OAuthHandler.finish_authorization`: exchange
the code (`exchange = some data` on success, `none` when the exchange raised
`AuthorizationError`), build the token dictionary with
`created_at = int(utcnow().timestamp())` (`now`; the `expires_at` stamp uses
a second `utcnow()` call microseconds later, modelled as the same instant,
so `expires_at = now + expires_in` when `expires_in` is present and truthy),
save it (raising `TokenStorageError` when `save_tokens` returns `False`),
then verify by re-loading (`verifyLoadOk`; raising `TokenStorageError` when
the verification load yields nothing).  The method returns `None` on
success. -/
def finish_authorization_body (fs : StorageFS) (password : String)
    (exchange : Option ExchangeResult) (now : Int) (savedAt : String)
    (writeOk verifyLoadOk : Bool) : StorageFS × Except AuthError Unit :=
  match exchange with
  | none => (fs, Except.error AuthError.authorizationError)
  | some data =>
    let tokens0 : TokenRecord :=
      [("access_token", JVal.jstr data.accessToken),
       ("refresh_token",
         match data.refreshToken with
         | some rt => JVal.jstr rt
         | none => JVal.jnull),
       ("token_type", JVal.jstr data.tokenType),
       ("account_id", JVal.jstr data.accountId),
       ("uid", JVal.jstr data.uid),
       ("created_at", JVal.jint now)]
    let tokens :=
      match data.expiresIn with
      | some e =>
        if e ≠ 0 then dictInsert tokens0 "expires_at" (JVal.jint (now + e))
        else tokens0
      | none => tokens0
    let r := save_tokens fs password tokens savedAt writeOk
    if r.ok then
      if verifyLoadOk then (r.fs, Except.ok ())
      else (r.fs, Except.error AuthError.tokenStorageError)
    else (r.fs, Except.error AuthError.tokenStorageError)

/-- `OAuthHandler.finish_authorization`: the body under the blanket
`except Exception` handler that re-raises everything as
`AuthorizationError`. -/
def finish_authorization (fs : StorageFS) (password : String)
    (exchange : Option ExchangeResult) (now : Int) (savedAt : String)
    (writeOk verifyLoadOk : Bool) : StorageFS × Except AuthError Unit :=
  let (fs', r) := finish_authorization_body fs password exchange now savedAt
    writeOk verifyLoadOk
  (fs', wrapAsAuthorizationError r)

/-- `DEFAULT_TOKEN_EXPIRY_BUFFER`; `get_oauth_config` always returns
`token_expiry_buffer = 300`. -/
def DEFAULT_TOKEN_EXPIRY_BUFFER : Int := 300

/-- `OAuthHandler._is_token_expired` at time `now = utcnow().timestamp()`:
without an `expires_at` key the token is treated as long-lived (`False`);
otherwise expired iff `now >= expires_at - 300`.  (A non-integer
`expires_at` is outside the record format the handler itself writes; the
catch-all branch is never exercised by records this program produces.) -/
def is_token_expired (tokens : TokenRecord) (now : Int) : Bool :=
  match dictLookup tokens "expires_at" with
  | none => false
  | some (JVal.jint expiresAt) =>
    decide (now ≥ expiresAt - DEFAULT_TOKEN_EXPIRY_BUFFER)
  | some _ => false

/-- `OAuthHandler.logout`: clears `self._client`, then returns
`self.storage.delete_tokens()`.  `SecureTokenStorage` defines no method
`delete_tokens` (its methods are `load_tokens`, `save_tokens`,
`clear_tokens`), so the attribute access raises `AttributeError`, which the
`except Exception` handler catches, returning `False`; the storage is never
touched. -/
def logout (fs : StorageFS) : StorageFS × Bool :=
  (fs, false)

/-! ## CallbackListener (`cli.py`, class `OAuthCallbackHandler`) -/

/-- The observable outcome of one `OAuthCallbackHandler.do_GET` call: the
HTTP status sent, the captured authorization code / error (if any), and
whether the handler started the thread that shuts the server down. -/
structure CallbackOutcome where
  status : Nat
  authCode : Option String
  authError : Option String
  shutdown : Bool
deriving DecidableEq, Repr

/-- First value of a query parameter, as `parse_qs(query)[name][0]` after an
`if name in params` guard. -/
def qLookup : List (String × String) → String → Option String
  | [], _ => none
  | (k, v) :: rest, name => if k = name then some v else qLookup rest name

/-- `OAuthCallbackHandler.do_GET` on a request whose parsed query parameters
are `params`: a `code` parameter is captured and answered 200; otherwise an
`error` parameter is captured and answered 400; otherwise the request is
answered 400 with "Invalid request".  After the `if/elif/else`, the handler
unconditionally starts a thread running `self.server.shutdown()`. -/
def do_GET (params : List (String × String)) : CallbackOutcome :=
  match qLookup params "code" with
  | some c => { status := 200, authCode := some c, authError := none, shutdown := true }
  | none =>
    match qLookup params "error" with
    | some e => { status := 400, authCode := none, authError := some e, shutdown := true }
    | none => { status := 400, authCode := none, authError := none, shutdown := true }

/-! ## Sample data used by concrete counterexamples and witnesses -/

/-- A stored record for identity tests: expired at any `now ≥ -200`, carries
a refresh token. -/
def sampleStoredRecord : TokenRecord :=
  [("access_token", JVal.jstr "old_access"),
   ("refresh_token", JVal.jstr "rt"),
   ("expires_at", JVal.jint 100)]

/-- Storage state holding `sampleStoredRecord` encrypted under passphrase
`"p"`, with no temporary file. -/
def sampleFS : StorageFS :=
  ⟨some (fernetEncrypt (generate_key_from_password "p") sampleStoredRecord), none⟩

/-- A successful code-for-token exchange result with a 4-hour expiry. -/
def sampleExchange : ExchangeResult :=
  ⟨"new_access", some "rt", "bearer", "acct", "uid", some 14400⟩

/-! ## Claims -/

/-- C4: with the default buffer 300, a record with an integer `expires_at`
is classified expired exactly when `now ≥ expires_at - 300`; in particular
`expires_at = now + 299` is expired and `expires_at = now + 301` is valid,
and a record without `expires_at` is never expired. -/
theorem is_token_expired_boundary (now : Int) (r : TokenRecord) :
    (∀ e : Int, dictLookup r "expires_at" = some (JVal.jint e) →
      (is_token_expired r now = true ↔ now ≥ e - 300)) ∧
    (dictLookup r "expires_at" = none → is_token_expired r now = false) ∧
    is_token_expired [("expires_at", JVal.jint (now + 299))] now = true ∧
    is_token_expired [("expires_at", JVal.jint (now + 301))] now = false := by
  refine ⟨?_, ?_, ?_, ?_⟩
  · intro e he
    simp [is_token_expired, he, DEFAULT_TOKEN_EXPIRY_BUFFER]
  · intro he
    simp [is_token_expired, he]
  · simp only [is_token_expired, dictLookup, DEFAULT_TOKEN_EXPIRY_BUFFER]
    norm_num
  · simp only [is_token_expired, dictLookup, DEFAULT_TOKEN_EXPIRY_BUFFER]
    norm_num

/-- Witness for C4 at `now = 0`: a record expiring at 100 is already inside
the buffer, and a record with no expiry is not expired. -/
theorem is_token_expired_boundary_witness :
    is_token_expired [("expires_at", JVal.jint 100)] 0 = true ∧
    is_token_expired [] 0 = false :=
  ⟨((is_token_expired_boundary 0 [("expires_at", JVal.jint 100)]).1 100 rfl).mpr
      (by decide),
   (is_token_expired_boundary 0 []).2.1 rfl⟩

/-- C5: decryption under the key derived from a passphrase inverts
encryption under that key, and a successful `save_tokens` followed by
`load_tokens` on the same storage returns exactly the record that was saved
(the caller's record after its in-place `_saved_at` stamp). -/
theorem save_load_round_trip (fs : StorageFS) (password : String)
    (tokens : TokenRecord) (now : String) :
    fernetDecrypt (generate_key_from_password password)
        (fernetEncrypt (generate_key_from_password password) tokens)
      = some tokens ∧
    (save_tokens fs password tokens now true).ok = true ∧
    load_tokens (save_tokens fs password tokens now true).fs password
      = some (save_tokens fs password tokens now true).tokens := by
  refine ⟨?_, rfl, ?_⟩ <;>
    simp [fernetDecrypt, fernetEncrypt, save_tokens, load_tokens]

/-- C10: `save_tokens` mutates the caller's dictionary in place: afterwards
it holds `_saved_at` equal to the save timestamp, every other key is
unchanged, and this happens whether or not the write succeeds (the mutation
precedes the write). -/
theorem save_tokens_mutates_caller (fs : StorageFS) (password : String)
    (tokens : TokenRecord) (now : String) (writeOk : Bool) :
    (save_tokens fs password tokens now writeOk).tokens
      = dictInsert tokens "_saved_at" (JVal.jstr now) ∧
    dictLookup (save_tokens fs password tokens now writeOk).tokens "_saved_at"
      = some (JVal.jstr now) ∧
    ∀ k : String, k ≠ "_saved_at" →
      dictLookup (save_tokens fs password tokens now writeOk).tokens k
        = dictLookup tokens k := by
  refine ⟨?_, ?_, ?_⟩
  · cases writeOk <;> simp [save_tokens]
  · cases writeOk <;> simp [save_tokens, dictLookup_dictInsert_self]
  · intro k hk
    cases writeOk <;> simp [save_tokens, dictLookup_dictInsert_other _ _ _ _ hk]

/-- Witness for C10: saving a one-entry record stamps `_saved_at` and leaves
`access_token` untouched. -/
theorem save_tokens_mutates_caller_witness :
    dictLookup (save_tokens ⟨none, none⟩ "p" [("access_token", JVal.jstr "a")]
        "2025-01-01T00:00:00" true).tokens "_saved_at"
      = some (JVal.jstr "2025-01-01T00:00:00") ∧
    dictLookup (save_tokens ⟨none, none⟩ "p" [("access_token", JVal.jstr "a")]
        "2025-01-01T00:00:00" true).tokens "access_token"
      = some (JVal.jstr "a") :=
  ⟨(save_tokens_mutates_caller ⟨none, none⟩ "p" [("access_token", JVal.jstr "a")]
      "2025-01-01T00:00:00" true).2.1,
   ((save_tokens_mutates_caller ⟨none, none⟩ "p" [("access_token", JVal.jstr "a")]
      "2025-01-01T00:00:00" true).2.2 "access_token" (by decide)).trans rfl⟩

theorem fernetDecrypt_fernetEncrypt (key : String) (payload : TokenRecord) :
    fernetDecrypt key (fernetEncrypt key payload) = some payload := by
  simp [fernetDecrypt, fernetEncrypt]

/-- C1 counterexample: for the stored record that is expired at `now = 1000`
and carries refresh token `"rt"`, a successful refresh produces and persists
a record with no `expires_at` key at all — `refresh_tokens` never reads the
`expires_in` of the refresh response, so the record's expiry cannot equal
`savedAt + 14400` (or any value). -/
theorem refresh_tokens_counterexample :
    is_token_expired sampleStoredRecord 1000 = true ∧
    dictLookup sampleStoredRecord "refresh_token" = some (JVal.jstr "rt") ∧
    (refresh_tokens sampleFS "p" "rt" "new_access" 1000 "T" true true).2
      = Except.ok
        [("access_token", JVal.jstr "new_access"),
         ("refresh_token", JVal.jstr "rt"),
         ("token_type", JVal.jstr "bearer"),
         ("refreshed_at", JVal.jint 1000),
         ("_saved_at", JVal.jstr "T")] ∧
    dictLookup
        [("access_token", JVal.jstr "new_access"),
         ("refresh_token", JVal.jstr "rt"),
         ("token_type", JVal.jstr "bearer"),
         ("refreshed_at", JVal.jint 1000),
         ("_saved_at", JVal.jstr "T")] "expires_at" = none :=
  ⟨rfl, rfl, rfl, rfl⟩

/-- C1 (amended): for every stored record that is expired and has a refresh
token, a successful refresh produces and persists a record holding the new
access token, the same refresh token, token type `bearer`, `refreshed_at`
and `_saved_at` — and no `expires_at` key (the refreshed record is treated
as non-expiring); loading the identity afterwards returns exactly this new
record. -/
theorem refresh_tokens_result_spec (fs : StorageFS)
    (password refreshToken newAccessToken : String) (refreshedAt : Int)
    (savedAt : String) (rec0 : TokenRecord) (now : Int)
    (_hload : load_tokens fs password = some rec0)
    (_hexp : is_token_expired rec0 now = true)
    (_hrt : dictLookup rec0 "refresh_token" = some (JVal.jstr refreshToken)) :
    (refresh_tokens fs password refreshToken newAccessToken refreshedAt
        savedAt true true).2
      = Except.ok
        [("access_token", JVal.jstr newAccessToken),
         ("refresh_token", JVal.jstr refreshToken),
         ("token_type", JVal.jstr "bearer"),
         ("refreshed_at", JVal.jint refreshedAt),
         ("_saved_at", JVal.jstr savedAt)] ∧
    dictLookup
        [("access_token", JVal.jstr newAccessToken),
         ("refresh_token", JVal.jstr refreshToken),
         ("token_type", JVal.jstr "bearer"),
         ("refreshed_at", JVal.jint refreshedAt),
         ("_saved_at", JVal.jstr savedAt)] "expires_at" = none ∧
    load_tokens (refresh_tokens fs password refreshToken newAccessToken
        refreshedAt savedAt true true).1 password
      = some
        [("access_token", JVal.jstr newAccessToken),
         ("refresh_token", JVal.jstr refreshToken),
         ("token_type", JVal.jstr "bearer"),
         ("refreshed_at", JVal.jint refreshedAt),
         ("_saved_at", JVal.jstr savedAt)] := by
  refine ⟨rfl, rfl, ?_⟩
  simp [refresh_tokens, refresh_tokens_body, save_tokens, load_tokens,
    fernetDecrypt_fernetEncrypt, dictInsert]

/-- Witness for C1 (amended) at the sample expired record. -/
theorem refresh_tokens_result_spec_witness :
    (refresh_tokens sampleFS "p" "rt" "new_access" 1000 "T" true true).2
      = Except.ok
        [("access_token", JVal.jstr "new_access"),
         ("refresh_token", JVal.jstr "rt"),
         ("token_type", JVal.jstr "bearer"),
         ("refreshed_at", JVal.jint 1000),
         ("_saved_at", JVal.jstr "T")] ∧
    dictLookup
        [("access_token", JVal.jstr "new_access"),
         ("refresh_token", JVal.jstr "rt"),
         ("token_type", JVal.jstr "bearer"),
         ("refreshed_at", JVal.jint 1000),
         ("_saved_at", JVal.jstr "T")] "expires_at" = none ∧
    load_tokens (refresh_tokens sampleFS "p" "rt" "new_access" 1000 "T"
        true true).1 "p"
      = some
        [("access_token", JVal.jstr "new_access"),
         ("refresh_token", JVal.jstr "rt"),
         ("token_type", JVal.jstr "bearer"),
         ("refreshed_at", JVal.jint 1000),
         ("_saved_at", JVal.jstr "T")] :=
  refresh_tokens_result_spec sampleFS "p" "rt" "new_access" 1000 "T"
    sampleStoredRecord 1000 rfl rfl rfl

/-- C2 counterexample: when the remote exchange succeeds but persisting
fails, the `TokenStorageError` raised inside the `try` body is swallowed by
the blanket handler, and the caller sees `TokenRefreshError` — not
`TokenStorageError`. -/
theorem refresh_persist_failure_counterexample :
    (refresh_tokens_body sampleFS "p" "rt" "new_access" 1000 "T" true false).2
      = Except.error AuthError.tokenStorageError ∧
    (refresh_tokens sampleFS "p" "rt" "new_access" 1000 "T" true false).2
      = Except.error AuthError.tokenRefreshError ∧
    AuthError.tokenRefreshError ≠ AuthError.tokenStorageError :=
  ⟨rfl, rfl, by decide⟩

/-- C2 (amended): for every refresh in which the remote exchange succeeds
but persisting fails, the body raises `TokenStorageError`, and
`refresh_tokens` re-raises it to the caller as `TokenRefreshError`. -/
theorem refresh_persist_failure_raises (fs : StorageFS)
    (password refreshToken newAccessToken : String) (refreshedAt : Int)
    (savedAt : String) :
    (refresh_tokens_body fs password refreshToken newAccessToken refreshedAt
        savedAt true false).2
      = Except.error AuthError.tokenStorageError ∧
    (refresh_tokens fs password refreshToken newAccessToken refreshedAt
        savedAt true false).2
      = Except.error AuthError.tokenRefreshError :=
  ⟨rfl, rfl⟩

/-- C9 counterexample: a request with neither a `code` nor an `error`
parameter is answered 400, but the handler still starts the shutdown thread
— `do_GET` shuts the listener down on every request. -/
theorem callback_no_params_counterexample :
    do_GET [] = CallbackOutcome.mk 400 none none true ∧
    (do_GET []).shutdown ≠ false :=
  ⟨rfl, by decide⟩

/-- C9 (amended): a request with neither a `code` nor an `error` parameter
is answered 400 with nothing captured, and every request — this one
included — triggers the listener shutdown. -/
theorem callback_always_shuts_down (params : List (String × String)) :
    (qLookup params "code" = none → qLookup params "error" = none →
      (do_GET params).status = 400 ∧ (do_GET params).authCode = none ∧
      (do_GET params).authError = none) ∧
    (do_GET params).shutdown = true := by
  constructor
  · intro hc he
    simp [do_GET, hc, he]
  · cases hc : qLookup params "code" with
    | some c => simp [do_GET, hc]
    | none =>
      cases he : qLookup params "error" with
      | some e => simp [do_GET, hc, he]
      | none => simp [do_GET, hc, he]

/-- Witness for C9 (amended): a stray `favicon` request is answered 400 and
still shuts the listener down. -/
theorem callback_always_shuts_down_witness :
    (do_GET [("favicon", "1")]).status = 400 ∧
    (do_GET [("favicon", "1")]).shutdown = true :=
  ⟨((callback_always_shuts_down [("favicon", "1")]).1 rfl rfl).1,
   (callback_always_shuts_down [("favicon", "1")]).2⟩

/-- C3: the save sequence is not atomic when a record already exists — the
state reached after `os.unlink(self.token_path)` and before
`os.rename(temp_path, self.token_path)` (index 2 of the program-order state
list) has no destination file at all, so an interruption there leaves the
previously stored record gone and `load_tokens` returning nothing, although
the code's own comment announces "Write to file atomically". -/
theorem save_interruption_loses_record :
    load_tokens sampleFS "p" = some sampleStoredRecord ∧
    (save_states sampleFS "p" [("access_token", JVal.jstr "new")] "T")[2]?
      = some ⟨none, some (fernetEncrypt (generate_key_from_password "p")
          (dictInsert [("access_token", JVal.jstr "new")] "_saved_at"
            (JVal.jstr "T")))⟩ ∧
    load_tokens ⟨none, some (fernetEncrypt (generate_key_from_password "p")
          (dictInsert [("access_token", JVal.jstr "new")] "_saved_at"
            (JVal.jstr "T")))⟩ "p" = none :=
  ⟨rfl, rfl, rfl⟩

/-- C6: when the exchange and save succeed but the verification re-load
fails, the `try` body of `finish_authorization` raises `TokenStorageError`,
but the blanket handler re-raises it as `AuthorizationError` — contradicting
the method's own docstring, under which `TokenStorageError` reaches the
caller when tokens cannot be stored. -/
theorem finish_verification_failure_error_type :
    (finish_authorization_body ⟨none, none⟩ "p" (some sampleExchange) 1000
        "T" true false).2
      = Except.error AuthError.tokenStorageError ∧
    (finish_authorization ⟨none, none⟩ "p" (some sampleExchange) 1000
        "T" true false).2
      = Except.error AuthError.authorizationError ∧
    AuthError.authorizationError ≠ AuthError.tokenStorageError :=
  ⟨rfl, rfl, by decide⟩

/-- C7: `logout` on an identity with a stored record reports failure and
leaves the record on disk and loadable — the call to the nonexistent
`storage.delete_tokens` raises `AttributeError`, caught and converted to
`False`, although the repository's own test expects `logout` to call
`clear_tokens` and return `True`. -/
theorem logout_keeps_record_and_fails :
    logout sampleFS = (sampleFS, false) ∧
    load_tokens (logout sampleFS).1 "p" = some sampleStoredRecord :=
  ⟨rfl, rfl⟩

/-- C8: `clear_tokens` on an identity with a stored record removes the file
but returns `False` (the second unlink of the already-removed path raises
`FileNotFoundError`), although the repository's own test expects `True`;
only the call on an absent file returns `True`, so of two consecutive calls
the first fails and the second succeeds. -/
theorem clear_tokens_existing_reports_failure :
    clear_tokens sampleFS = (⟨none, none⟩, false) ∧
    clear_tokens (clear_tokens sampleFS).1 = ((clear_tokens sampleFS).1, true) :=
  ⟨rfl, rfl⟩
